import Mathlib

/-!
Verification of the configuration-resolution engine of `src/common/args.cpp`
(the `ArgsManager` of a cryptocurrency full node).

C++ `std::string` is modelled as a Lean `String`; all positional operations
(`substr`, `erase`, `find`) are carried out on the underlying character list
so that concrete instances evaluate by `decide`.  The tagged settings value
of univalue (`util::SettingsValue`) is modelled as the inductive
`SettingsValue`; a call to univalue's `get_str` on a value that is neither a
string nor a boolean throws in C++ and is modelled by an `Option` layer where
that matters.  Filesystem effects and the platform data directory are
external collaborators of the engine and are injected as parameters.
-/

/-- The tagged settings value of univalue: null, boolean, integer
(univalue keeps the decimal text of a number; we keep the integer),
string, or list of values. -/
inductive SettingsValue where
  | vnull
  | vbool (b : Bool)
  | vnum (n : Int)
  | vstr (s : String)
  | vlist (l : List SettingsValue)
deriving Repr, Inhabited

/-- univalue `isNull`. -/
def SettingsValue.isNull : SettingsValue → Bool
  | .vnull => true
  | _ => false

/-- univalue `isFalse`: the value is literally the boolean `false`. -/
def SettingsValue.isFalse : SettingsValue → Bool
  | .vbool false => true
  | _ => false

/-- univalue `isTrue`: the value is literally the boolean `true`. -/
def SettingsValue.isTrue : SettingsValue → Bool
  | .vbool true => true
  | _ => false

/-- univalue `isBool`. -/
def SettingsValue.isBoolVal : SettingsValue → Bool
  | .vbool _ => true
  | _ => false

/-- univalue `get_str`; `none` models the exception thrown on a value that
is not a string. -/
def SettingsValue.getStr : SettingsValue → Option String
  | .vstr s => some s
  | _ => none

/-- `s.substr(0, n)` / the first `n` characters. -/
def strTake (s : String) (n : Nat) : String :=
  String.mk (s.data.take n)

/-- `s.erase(0, n)` / everything past the first `n` characters. -/
def strDrop (s : String) (n : Nat) : String :=
  String.mk (s.data.drop n)

/-- Split a character list at the first occurrence of `c`
(`std::string::find` followed by `substr`/`erase`); `none` when `c` does
not occur. -/
def splitAtFirst : List Char → Char → Option (List Char × List Char)
  | [], _ => none
  | x :: xs, c =>
    if x = c then some ([], xs)
    else (splitAtFirst xs c).map (fun p => (x :: p.1, p.2))

/-- C `isspace` on the default locale, as consulted by `atoi`. -/
def isSpaceChar (c : Char) : Bool :=
  c = ' ' ∨ c = '\t' ∨ c = '\n' ∨ c = '\x0b' ∨ c = '\x0c' ∨ c = '\r'

/-- Leading-whitespace skipping of C `atoi`. -/
def skipSpace : List Char → List Char
  | [] => []
  | c :: cs => if isSpaceChar c then skipSpace cs else c :: cs

/-- Accumulate the value of a maximal leading run of decimal digits;
parsing stops at the first non-digit (C `atoi` semantics). -/
def parseDigits : List Char → Int → Int
  | [], acc => acc
  | c :: cs, acc =>
    if '0' ≤ c ∧ c ≤ '9' then parseDigits cs (acc * 10 + ((c.toNat - '0'.toNat : Nat) : Int))
    else acc

/-- C `atoi` (and the engine's `atoi64`): skip whitespace, optional sign,
then a best-effort decimal parse that yields 0 on non-numeric input.
Overflow behaviour is undefined in C and the model keeps the exact
integer. -/
def atoi (s : String) : Int :=
  match skipSpace s.data with
  | '-' :: rest => - parseDigits rest 0
  | '+' :: rest => parseDigits rest 0
  | cs => parseDigits cs 0

/-- `atoi64` of strencodings, used by `SettingToInt`; same best-effort
decimal parse. -/
def atoi64 (s : String) : Int :=
  atoi s

/-- `InterpretBool` (args.cpp:57): empty string is true, otherwise the
`atoi` value decides — non-zero is true, zero (including every
non-numeric string) is false. -/
def InterpretBool (strValue : String) : Bool :=
  if strValue = "" then true
  else atoi strValue != 0

/-- `SettingName` (args.cpp:64): strip one leading dash. -/
def SettingName (arg : String) : String :=
  if arg.data.head? = some '-' then strDrop arg 1 else arg

/-- The section/key split at the head of `InterpretOption` (args.cpp:91):
split the key on its first dot when one occurs, otherwise keep the
incoming section (the caller's by-reference `section` variable) and key. -/
def splitSectionKey (sectIn keyIn : String) : String × String :=
  match splitAtFirst keyIn.data '.' with
  | some (pre, post) => (String.mk pre, String.mk post)
  | none => (sectIn, keyIn)

/-- Result of `InterpretOption`: the final contents of the by-reference
`section` and `key` variables, the returned `util::SettingsValue`, and
whether the double-negative warning was logged.  (`section` is a Lean
keyword, hence the field name `sect`.) -/
structure InterpretedOption where
  sect : String
  key : String
  value : SettingsValue
  warned : Bool
deriving Repr

/-- `InterpretOption` (args.cpp:87): split off a dotted section prefix,
then interpret a `no`-prefixed key (`key.substr(0, 2) == "no"`) as a
negation — a value interpreting as boolean false is a double negative
yielding `true` plus a logged warning, otherwise the negation yields
`false`; a key without the `no` prefix passes the raw value through as a
string. -/
def InterpretOption (sectIn keyIn value : String) : InterpretedOption :=
  let sk := splitSectionKey sectIn keyIn
  if strTake sk.2 2 = "no" then
    if InterpretBool value then
      { sect := sk.1, key := strDrop sk.2 2, value := .vbool false, warned := false }
    else
      { sect := sk.1, key := strDrop sk.2 2, value := .vbool true, warned := true }
  else
    { sect := sk.1, key := sk.2, value := .vstr value, warned := false }

/-- `ArgsManager::ALLOW_BOOL` bit.  Modelled from the spec: the flag
bitset lives in `common/args.h`, which is not part of the excerpt; only
the boolean-allowed bit is consulted by the excerpted code, so its
numeric position is immaterial. -/
def ALLOW_BOOL : Nat := 1

/-- `CheckValid` (args.cpp:117): a boolean value for a key whose flags do
not allow booleans is rejected with a descriptive error; `none` means
valid. -/
def CheckValid (key : String) (val : SettingsValue) (flags : Nat) : Option String :=
  if val.isBoolVal ∧ flags &&& ALLOW_BOOL = 0 then
    some ("Negating of -" ++ key ++ " is meaningless and therefore forbidden")
  else none

/-- `CBaseChainParams::MAIN` (chainparamsbase, an external collaborator):
the primary network's name. -/
def CBaseChainParams.MAIN : String := "main"

/-- `CBaseChainParams::TESTNET`. -/
def CBaseChainParams.TESTNET : String := "test"

/-- `CBaseChainParams::REGTEST`. -/
def CBaseChainParams.REGTEST : String := "regtest"

/-- `util::Settings` (util/settings.h): the four source layers.  Maps are
modelled as association lists keyed by the dash-less setting name;
`ro_config` maps a section name (the default section is `""`) to a map
from key to the ordered list of values appearing in that section. -/
structure Settings where
  forced_settings : List (String × SettingsValue)
  command_line_options : List (String × List SettingsValue)
  ro_config : List (String × List (String × List SettingsValue))
  rw_settings : List (String × SettingsValue)
deriving Repr

/-- The values a multi-valued layer holds for a key (empty when the key
is absent). -/
def lookupValues (m : List (String × List SettingsValue)) (name : String) :
    List SettingsValue :=
  (m.lookup name).getD []

/-- The key→values map of one config-file section (empty when the
section is absent). -/
def lookupSection (cfg : List (String × List (String × List SettingsValue)))
    (sect : String) : List (String × List SettingsValue) :=
  (cfg.lookup sect).getD []

/-- Modelled from the spec: `util::GetSetting` of `util/settings.cpp` is
not part of the excerpt.  Spec §4.5: the search order is Forced →
CommandLine → ConfigFile[active network section] (only when a network is
selected) → ConfigFile[default section] (unless default-section fallback
is disallowed for this key) → Persisted; the first source holding at
least one value for the key wins and the last inserted value within that
source is the scalar result; no value anywhere resolves to Null. -/
def util.GetSetting (s : Settings) (network name : String)
    (ignore_default_section_config : Bool) : SettingsValue :=
  match s.forced_settings.lookup name with
  | some v => v
  | none =>
    if ¬ (lookupValues s.command_line_options name).isEmpty then
      (lookupValues s.command_line_options name).getLastD .vnull
    else if ¬ ((if network ≠ "" then lookupValues (lookupSection s.ro_config network) name
                else []).isEmpty) then
      (if network ≠ "" then lookupValues (lookupSection s.ro_config network) name
       else []).getLastD .vnull
    else if ¬ ((if ignore_default_section_config then []
                else lookupValues (lookupSection s.ro_config "") name).isEmpty) then
      (if ignore_default_section_config then []
       else lookupValues (lookupSection s.ro_config "") name).getLastD .vnull
    else
      match s.rw_settings.lookup name with
      | some v => v
      | none => .vnull

/-- The `ArgsManager` state consulted by the excerpted accessors: the
source layers, the selected network, the set of network-only argument
names (dash-prefixed, as stored by `AddArg`), and the registry flattened
to one name→flags map (dash-prefixed names, as consulted by
`GetArgFlags`). -/
structure ArgsManager where
  m_settings : Settings
  m_network : String
  m_network_only_args : List String
  m_available_args : List (String × Nat)
deriving Repr

/-- `ArgsManager::UseDefaultSection` (args.cpp:823): the default config
section is usable when the main network is selected or the argument is
not network-only. -/
def ArgsManager.UseDefaultSection (am : ArgsManager) (arg : String) : Bool :=
  am.m_network = CBaseChainParams.MAIN ∨ ¬ am.m_network_only_args.contains arg

/-- `ArgsManager::GetSetting` (args.cpp:828): resolve through
`util::GetSetting` under the selected network, disallowing the default
section exactly when `UseDefaultSection` denies it. -/
def ArgsManager.GetSetting (am : ArgsManager) (arg : String) : SettingsValue :=
  util.GetSetting am.m_settings am.m_network (SettingName arg)
    (! am.UseDefaultSection arg)

/-- `ArgsManager::GetArgFlags` (args.cpp:263): the registered flags of a
(dash-prefixed) name, `none` when never registered. -/
def ArgsManager.GetArgFlags (am : ArgsManager) (name : String) : Option Nat :=
  am.m_available_args.lookup name

/-- `ArgsManager::IsArgSet` (args.cpp:381). -/
def ArgsManager.IsArgSet (am : ArgsManager) (arg : String) : Bool :=
  ! (am.GetSetting arg).isNull

/-- `ArgsManager::IsArgNegated` (args.cpp:490): the resolved value is
literally the boolean `false`. -/
def ArgsManager.IsArgNegated (am : ArgsManager) (arg : String) : Bool :=
  (am.GetSetting arg).isFalse

/-- `SettingToString` (args.cpp:505).  The outer `Option` is the
univalue exception layer: `none` when the final `value.get_str()` would
throw (the value is a list); `some none` is C++ `std::nullopt` for a
Null value. -/
def SettingToString (value : SettingsValue) : Option (Option String) :=
  match value with
  | .vnull => some none
  | .vbool false => some (some "0")
  | .vbool true => some (some "1")
  | .vnum n => some (some (toString n))
  | .vstr s => some (some s)
  | .vlist _ => none

/-- `SettingToInt` (args.cpp:536), with the same exception layer. -/
def SettingToInt (value : SettingsValue) : Option (Option Int) :=
  match value with
  | .vnull => some none
  | .vbool false => some (some 0)
  | .vbool true => some (some 1)
  | .vnum n => some (some n)
  | .vstr s => some (some (atoi64 s))
  | .vlist _ => none

/-- `SettingToBool` (args.cpp:565), with the same exception layer. -/
def SettingToBool (value : SettingsValue) : Option (Option Bool) :=
  match value with
  | .vnull => some none
  | .vbool b => some (some b)
  | .vstr s => some (some (InterpretBool s))
  | _ => none

/-- `ArgsManager::GetArg` with a default (args.cpp:494); `none` is the
univalue exception layer. -/
def ArgsManager.GetArg (am : ArgsManager) (arg strDefault : String) :
    Option String :=
  (SettingToString (am.GetSetting arg)).map (fun o => o.getD strDefault)

/-- `ArgsManager::GetIntArg` with a default (args.cpp:526). -/
def ArgsManager.GetIntArg (am : ArgsManager) (arg : String) (nDefault : Int) :
    Option Int :=
  (SettingToInt (am.GetSetting arg)).map (fun o => o.getD nDefault)

/-- `ArgsManager::GetBoolArg` with a default (args.cpp:556). -/
def ArgsManager.GetBoolArg (am : ArgsManager) (arg : String) (fDefault : Bool) :
    Option Bool :=
  (SettingToBool (am.GetSetting arg)).map (fun o => o.getD fDefault)

/-- The `get_net` lambda of `ArgsManager::GetChainName` (args.cpp:794):
resolve the setting with an empty section and coerce — Null is false, a
boolean is itself, a string goes through `InterpretBool`.  `none` models
the univalue `get_str` exception on a number or list.  The
`get_chain_name=true` special case of `util::GetSetting` is not described
by the spec and the plain resolver is used. -/
def get_net (am : ArgsManager) (arg : String) : Option Bool :=
  match util.GetSetting am.m_settings "" (SettingName arg) false with
  | .vnull => some false
  | .vbool b => some b
  | .vstr s => some (InterpretBool s)
  | _ => none

/-- `ArgsManager::GetChainName` (args.cpp:793): more than one of
{`-chain` set, `-testnet` active, `-regtest` active} is a fatal
configuration error (`Except.error`); otherwise `-regtest` wins, then
`-testnet`, then the `-chain` value with default `main`.  The outer
`Option` is the univalue exception layer. -/
def ArgsManager.GetChainName (am : ArgsManager) : Option (Except String String) :=
  match get_net am "-regtest", get_net am "-testnet" with
  | some fRegTest, some fTestNet =>
    let is_chain_arg_set := am.IsArgSet "-chain"
    if 1 < (if is_chain_arg_set then 1 else 0) + (if fRegTest then 1 else 0) +
           (if fTestNet then 1 else 0) then
      some (.error
        "Invalid combination of -regtest, -testnet and -chain. Can use at most one.")
    else if fRegTest then some (.ok CBaseChainParams.REGTEST)
    else if fTestNet then some (.ok CBaseChainParams.TESTNET)
    else (am.GetArg "-chain" CBaseChainParams.MAIN).map Except.ok
  | _, _ => none

/-- `ParseKeyValue` (args.cpp:177), non-Windows branch (no lowercasing,
no slash rewrite): split `key[=value]` at the first `=`; a key whose
first character is not a dash fails (`none`); a `--` prefix is collapsed
to `-` (`key.erase(0, 1)` when the second character is also a dash). -/
def ParseKeyValue (keyIn : String) : Option (String × String) :=
  let kv :=
    match splitAtFirst keyIn.data '=' with
    | some (pre, post) => (String.mk pre, String.mk post)
    | none => (keyIn, "")
  if kv.1.data.head? ≠ some '-' then none
  else if (kv.1.data.drop 1).head? = some '-' then some (strDrop kv.1 1, kv.2)
  else some kv

/-- `m_settings.command_line_options[key].push_back(value)`
(args.cpp:246) on the association-list model. -/
def appendOption (m : List (String × List SettingsValue)) (k : String)
    (v : SettingsValue) : List (String × List SettingsValue) :=
  match m with
  | [] => [(k, [v])]
  | (k', vs) :: rest =>
    if k' = k then (k', vs ++ [v]) :: rest else (k', vs) :: appendOption rest k v

/-- The token loop of `ArgsManager::ParseParameters` (args.cpp:206),
non-macOS (no `-psn_` filtering): a bare `-` or a token rejected by
`ParseKeyValue` terminates the loop keeping what was accumulated; an
unknown key or a non-empty section is the fail-fast
`Invalid parameter <token>` error; a `CheckValid` failure is its own
error; otherwise the value is appended and the loop continues. -/
def parseLoop (am : ArgsManager) (tokens : List String)
    (opts : List (String × List SettingsValue)) :
    Except String (List (String × List SettingsValue)) :=
  match tokens with
  | [] => .ok opts
  | tok :: rest =>
    if tok = "-" then .ok opts
    else
      match ParseKeyValue tok with
      | none => .ok opts
      | some (k, v) =>
        let r := InterpretOption "" (strDrop k 1) v
        match am.GetArgFlags ("-" ++ r.key) with
        | none => .error ("Invalid parameter " ++ tok)
        | some flags =>
          if r.sect ≠ "" then .error ("Invalid parameter " ++ tok)
          else
            match CheckValid r.key r.value flags with
            | some e => .error e
            | none => parseLoop am rest (appendOption opts r.key r.value)

/-- The post-loop `-includeconf` rejection of `ParseParameters`
(args.cpp:250).  The `util::SettingsSpan` negation skipping of
`util/settings.h` is not part of the excerpt and is modelled from the
spec: every value accumulated for `includeconf` is reported.  `get_str`
of a non-string include is modelled as the empty string. -/
def parseFinish (opts : List (String × List SettingsValue)) :
    Except String (List (String × List SettingsValue)) :=
  match lookupValues opts "includeconf" with
  | [] => .ok opts
  | includes =>
    .error (String.join (includes.map (fun v =>
      "-includeconf cannot be used from commandline; -includeconf=" ++
      (v.getStr.getD "") ++ "\n")))

/-- `ArgsManager::ParseParameters` (args.cpp:201) on the `argv[1:]`
token list: run the loop starting from a cleared CommandLine layer, then
the `-includeconf` check; the result is the new CommandLine layer or the
single reported error. -/
def ArgsManager.ParseParameters (am : ArgsManager) (tokens : List String) :
    Except String (List (String × List SettingsValue)) :=
  match parseLoop am tokens [] with
  | .error e => .error e
  | .ok opts => parseFinish opts

/-- `map[name] = value` on the association-list model (insert or
overwrite). -/
def mapSet (m : List (String × SettingsValue)) (k : String) (v : SettingsValue) :
    List (String × SettingsValue) :=
  match m with
  | [] => [(k, v)]
  | (k', v') :: rest =>
    if k' = k then (k, v) :: rest else (k', v') :: mapSet rest k v

/-- `ArgsManager::ForceSetArg` (args.cpp:597): write the string value
into the Forced layer under the dash-stripped name. -/
def ArgsManager.ForceSetArg (am : ArgsManager) (arg value : String) : ArgsManager :=
  { am with
    m_settings :=
      { am.m_settings with
        forced_settings :=
          mapSet am.m_settings.forced_settings (SettingName arg) (.vstr value) } }

/-- `ArgsManager::SoftSetArg` (args.cpp:579): do nothing and report
`false` when the key already resolves; otherwise force-set and report
`true`.  The pair is (new state, return value). -/
def ArgsManager.SoftSetArg (am : ArgsManager) (arg value : String) :
    ArgsManager × Bool :=
  if am.IsArgSet arg then (am, false)
  else (am.ForceSetArg arg value, true)

/-- `BITCOIN_SETTINGS_FILENAME` (args.cpp:36). -/
def BITCOIN_SETTINGS_FILENAME : String := "settings.json"

/-- `ArgsManager::GetPathArg` (args.cpp:275) with an `fs::path` modelled
as a plain string: a negated argument is the empty path; an unset or
empty argument is the default.  `lexically_normal` and the
trailing-slash trim are filesystem concerns (external per spec §1) and
are modelled as the identity.  The outer `Option` is the univalue
exception layer of `GetArg`. -/
def ArgsManager.GetPathArg (am : ArgsManager) (arg default_value : String) :
    Option String :=
  if am.IsArgNegated arg then some ""
  else (am.GetArg arg "").map (fun path_str =>
    if path_str = "" then default_value else path_str)

/-- `ArgsManager::GetSettingsPath` (args.cpp:405): the inner `none` is
the `false` return ("settings file disabled", from an empty `-settings`
path); otherwise the file name with its `.bak` / `.tmp` suffixes.  The
join with the network data directory (an external collaborator) is
modelled as the file name itself. -/
def ArgsManager.GetSettingsPath (am : ArgsManager) (temp backup : Bool) :
    Option (Option String) :=
  (am.GetPathArg "-settings" BITCOIN_SETTINGS_FILENAME).map (fun s =>
    if s = "" then none
    else
      let s := if backup then s ++ ".bak" else s
      some (if temp then s ++ ".tmp" else s))

/-- Outcome of `ArgsManager::WriteSettingsFile`: success, failure with
collected diagnostics, or a thrown `std::logic_error`. -/
inductive SaveOutcome where
  | ok
  | failed (errs : List String)
  | thrown (msg : String)
deriving Repr, DecidableEq

/-- `ArgsManager::WriteSettingsFile` (args.cpp:457): a disabled settings
path throws a `std::logic_error`; otherwise `util::WriteSettings` (the
durable store, an external collaborator injected as
`writeOk`/`write_errors`) and `RenameOver` (injected as `renameOk`)
decide between diagnostics and success.  The outer `Option` is the
univalue exception layer of the path computation. -/
def ArgsManager.WriteSettingsFile (am : ArgsManager) (writeOk : Bool)
    (write_errors : List String) (renameOk backup : Bool) :
    Option SaveOutcome :=
  match am.GetSettingsPath false backup, am.GetSettingsPath true backup with
  | some (some path), some (some path_tmp) =>
    if ¬ writeOk then some (.failed write_errors)
    else if ¬ renameOk then
      some (.failed ["Failed renaming settings file " ++ path_tmp ++ " to " ++
                     path ++ "\n"])
    else some .ok
  | some _, some _ =>
    some (.thrown "Attempt to write settings file when dynamic settings are disabled.")
  | _, _ => none

/-- `ArgsManager::ReadSettingsFile` (args.cpp:432), result only: a
disabled settings path is an immediate successful no-op; otherwise
`util::ReadSettings` (external, injected as `readOk`) decides. -/
def ArgsManager.ReadSettingsFile (am : ArgsManager) (readOk : Bool) :
    Option Bool :=
  (am.GetSettingsPath false false).map (fun p =>
    match p with
    | none => true
    | some _ => readOk)

/-! ## Test fixtures: concrete `ArgsManager` states used by the concrete
instances below. -/

/-- An `ArgsManager` with empty source layers whose registry knows only
the boolean-capable `-foo`. -/
def fooOnlyAm : ArgsManager :=
  { m_settings :=
      { forced_settings := [], command_line_options := [], ro_config := [],
        rw_settings := [] },
    m_network := CBaseChainParams.MAIN, m_network_only_args := [],
    m_available_args := [("-foo", ALLOW_BOOL)] }

/-- An `ArgsManager` whose `foo` is forced to the string `"0"`. -/
def strZeroAm : ArgsManager :=
  { fooOnlyAm with
    m_settings := { fooOnlyAm.m_settings with
                    forced_settings := [("foo", .vstr "0")] } }

/-- The precedence fixture of the spec: `-maxmempool=100` on the command
line and `maxmempool=50` in the config file's default section. -/
def maxmempoolAm : ArgsManager :=
  { fooOnlyAm with
    m_settings :=
      { forced_settings := [],
        command_line_options := [("maxmempool", [.vstr "100"])],
        ro_config := [("", [("maxmempool", [.vstr "50"])])],
        rw_settings := [] } }

/-- An `ArgsManager` with `regtest` forced active. -/
def regtestAm : ArgsManager :=
  { fooOnlyAm with
    m_settings := { fooOnlyAm.m_settings with
                    forced_settings := [("regtest", .vstr "1")] } }

/-- An `ArgsManager` with `-settings` negated, disabling the settings
file. -/
def settingsOffAm : ArgsManager :=
  { fooOnlyAm with
    m_settings := { fooOnlyAm.m_settings with
                    forced_settings := [("settings", .vbool false)] } }

/-! ## The claims -/

/-- C9: `InterpretBool` maps the empty string to true and any other
string to true exactly when its best-effort integer parse (`atoi`) is
non-zero; zero and non-numeric strings give false, never an error. -/
theorem C9_interpret_bool_atoi (s : String) :
    InterpretBool "" = true ∧
    (s ≠ "" → (InterpretBool s = true ↔ atoi s ≠ 0)) := by
  refine ⟨rfl, fun hs => ?_⟩
  simp [InterpretBool, hs]

/-- C9 witness: the malformed boolean string `"true"` resolves via the
zero `atoi` parse (to false), without an error. -/
theorem C9_interpret_bool_atoi_witness :
    ("true" : String) ≠ "" ∧ (InterpretBool "true" = true ↔ atoi "true" ≠ 0) :=
  ⟨by decide, (C9_interpret_bool_atoi "true").2 (by decide)⟩

/-- C3 counterexample: the two-character raw key `no` *is* treated as a
negation by `InterpretOption` — the prefix is stripped leaving an empty
key and the value becomes the boolean `false` instead of passing through
as the string `"1"` — refuting the claimed at-least-3-characters
requirement. -/
theorem C3_counterexample_bare_no :
    (InterpretOption "" "no" "1").key = "" ∧
    (InterpretOption "" "no" "1").value = SettingsValue.vbool false ∧
    (InterpretOption "" "no" "1").value ≠ SettingsValue.vstr "1" :=
  ⟨rfl, rfl, fun h => nomatch h⟩

/-- C3 amended: the Key Normalizer treats a raw key as negated exactly
when, after section splitting, its first two characters are `no` — a
two-character check with no minimum length of 3, so the bare key `no`
itself is negated with an empty remaining key. -/
theorem C3_no_prefix_two_chars (sectIn keyIn value : String) :
    (strTake (splitSectionKey sectIn keyIn).2 2 = "no" →
      (InterpretOption sectIn keyIn value).key =
        strDrop (splitSectionKey sectIn keyIn).2 2 ∧
      (InterpretOption sectIn keyIn value).value =
        (if InterpretBool value then SettingsValue.vbool false
         else SettingsValue.vbool true)) ∧
    (strTake (splitSectionKey sectIn keyIn).2 2 ≠ "no" →
      (InterpretOption sectIn keyIn value).key = (splitSectionKey sectIn keyIn).2 ∧
      (InterpretOption sectIn keyIn value).value = SettingsValue.vstr value) := by
  constructor
  · intro h
    by_cases hb : InterpretBool value <;> simp [InterpretOption, h, hb]
  · intro h
    simp [InterpretOption, h]

/-- C3 amended witness: the bare key `no` is negated with an empty
remaining key. -/
theorem C3_no_prefix_two_chars_witness :
    strTake (splitSectionKey "" "no").2 2 = "no" ∧
    (InterpretOption "" "no" "1").key = strDrop (splitSectionKey "" "no").2 2 :=
  ⟨rfl, ((C3_no_prefix_two_chars "" "no" "1").1 rfl).1⟩

/-- C6: for a negated key, a value interpreting as boolean false (the
double negative) yields the boolean `true` together with the logged
warning; a value interpreting as boolean true yields the boolean
`false` with no warning; and a non-negated key passes the raw value
through unchanged as a string. -/
theorem C6_negation_interpretation (sectIn keyIn value : String) :
    (strTake (splitSectionKey sectIn keyIn).2 2 = "no" →
     InterpretBool value = false →
      (InterpretOption sectIn keyIn value).value = SettingsValue.vbool true ∧
      (InterpretOption sectIn keyIn value).warned = true) ∧
    (strTake (splitSectionKey sectIn keyIn).2 2 = "no" →
     InterpretBool value = true →
      (InterpretOption sectIn keyIn value).value = SettingsValue.vbool false ∧
      (InterpretOption sectIn keyIn value).warned = false) ∧
    (strTake (splitSectionKey sectIn keyIn).2 2 ≠ "no" →
      (InterpretOption sectIn keyIn value).value = SettingsValue.vstr value ∧
      (InterpretOption sectIn keyIn value).warned = false) := by
  refine ⟨fun h hb => ?_, fun h hb => ?_, fun h => ?_⟩
  · simp [InterpretOption, h, hb]
  · simp [InterpretOption, h, hb]
  · simp [InterpretOption, h]

/-- C6 witness: `-nofoo=0` is the double negative — boolean `true` with
the warning — while `-nofoo=1` gives boolean `false`. -/
theorem C6_negation_interpretation_witness :
    ((InterpretOption "" "nofoo" "0").value = SettingsValue.vbool true ∧
     (InterpretOption "" "nofoo" "0").warned = true) ∧
    ((InterpretOption "" "nofoo" "1").value = SettingsValue.vbool false ∧
     (InterpretOption "" "nofoo" "1").warned = false) :=
  ⟨(C6_negation_interpretation "" "nofoo" "0").1 rfl rfl,
   (C6_negation_interpretation "" "nofoo" "1").2.1 rfl rfl⟩

/-- C5 counterexample: a key resolving to the string `"0"` coerces to
boolean false under `SettingToBool`, yet `IsArgNegated` reports false —
refuting the claimed equivalence with boolean coercion. -/
theorem C5_counterexample_string_zero :
    SettingToBool (strZeroAm.GetSetting "-foo") = some (some false) ∧
    strZeroAm.IsArgNegated "-foo" = false :=
  ⟨rfl, rfl⟩

/-- C5 amended: `IsArgNegated` holds exactly when the resolved value is
literally the boolean `false` (a Null resolution, and equally a string
like `"0"` that merely coerces to false, are not negated). -/
theorem C5_negated_iff_literal_false (am : ArgsManager) (arg : String) :
    am.IsArgNegated arg = true ↔ am.GetSetting arg = SettingsValue.vbool false := by
  unfold ArgsManager.IsArgNegated
  cases h : am.GetSetting arg with
  | vnull => simp [SettingsValue.isFalse]
  | vbool b => cases b <;> simp [SettingsValue.isFalse]
  | vnum n => simp [SettingsValue.isFalse]
  | vstr s => simp [SettingsValue.isFalse]
  | vlist l => simp [SettingsValue.isFalse]

/-- C10: when the key already resolves to a non-null value, `SoftSetArg`
reports false and changes nothing; otherwise it writes the string into
the Forced layer through `ForceSetArg` — which touches no other source
layer — and reports true. -/
theorem C10_soft_set_frame (am : ArgsManager) (arg value : String) :
    (am.IsArgSet arg = true → am.SoftSetArg arg value = (am, false)) ∧
    (am.IsArgSet arg = false →
      am.SoftSetArg arg value = (am.ForceSetArg arg value, true) ∧
      (am.ForceSetArg arg value).m_settings.forced_settings =
        mapSet am.m_settings.forced_settings (SettingName arg) (.vstr value) ∧
      (am.ForceSetArg arg value).m_settings.command_line_options =
        am.m_settings.command_line_options ∧
      (am.ForceSetArg arg value).m_settings.ro_config =
        am.m_settings.ro_config ∧
      (am.ForceSetArg arg value).m_settings.rw_settings =
        am.m_settings.rw_settings) := by
  constructor
  · intro h
    simp [ArgsManager.SoftSetArg, h]
  · intro h
    exact ⟨by simp [ArgsManager.SoftSetArg, h], rfl, rfl, rfl, rfl⟩

/-- C10 witness: on a fresh state `-foo` is unset, so the soft set
lands in the Forced layer and reports true. -/
theorem C10_soft_set_frame_witness :
    fooOnlyAm.IsArgSet "-foo" = false ∧
    fooOnlyAm.SoftSetArg "-foo" "1" = (fooOnlyAm.ForceSetArg "-foo" "1", true) :=
  ⟨rfl, ((C10_soft_set_frame fooOnlyAm "-foo" "1").2 rfl).1⟩

/-- C2 counterexample: the non-dash token `foo` does not abort with an
"invalid parameter" failure — `ParseParameters` silently stops at it and
returns success (an empty CommandLine layer here), refuting the claimed
error. -/
theorem C2_counterexample_nondash_success :
    fooOnlyAm.ParseParameters ["foo"] = .ok [] ∧
    fooOnlyAm.ParseParameters ["foo"] ≠
      .error "Invalid parameter foo" :=
  ⟨rfl, fun h => nomatch h⟩

/-- C2 amended: a token (other than the bare `-` sentinel) that does not
start with a dash terminates parsing at that token with no diagnostic,
wherever it occurs: the loop stops there returning whatever CommandLine
layer was accumulated before it, every remaining token is ignored, and
the whole parse then reduces to the `-includeconf` finishing check
(`parseFinish`) on that accumulated layer.  The hypothesis `h3` says the
loop over the full token list, started from the cleared layer, reaches
the offending token with `opts` accumulated. -/
theorem C2_nondash_terminates_parse (am : ArgsManager) (tok : String)
    (rest toks : List String) (opts : List (String × List SettingsValue))
    (h1 : tok ≠ "-") (h2 : ParseKeyValue tok = none)
    (h3 : parseLoop am toks [] = parseLoop am (tok :: rest) opts) :
    parseLoop am (tok :: rest) opts = .ok opts ∧
    am.ParseParameters toks = parseFinish opts := by
  have hstop : parseLoop am (tok :: rest) opts = .ok opts := by
    simp [parseLoop, h1, h2]
  refine ⟨hstop, ?_⟩
  unfold ArgsManager.ParseParameters
  rw [h3, hstop]

/-- C2 amended witness: mid-sequence, after `-foo=3` has accumulated a
value, the non-dash token `bad` stops parsing with that value preserved
and the invalid `-unknownFlag` after it never examined; the parse
succeeds through the includeconf check on the accumulated layer. -/
theorem C2_nondash_terminates_parse_witness :
    parseLoop fooOnlyAm ["bad", "-unknownFlag"]
      [("foo", [SettingsValue.vstr "3"])] =
      .ok [("foo", [SettingsValue.vstr "3"])] ∧
    fooOnlyAm.ParseParameters ["-foo=3", "bad", "-unknownFlag"] =
      parseFinish [("foo", [SettingsValue.vstr "3"])] :=
  C2_nondash_terminates_parse fooOnlyAm "bad" ["-unknownFlag"]
    ["-foo=3", "bad", "-unknownFlag"] [("foo", [SettingsValue.vstr "3"])]
    (by decide) rfl rfl

/-- C7: as soon as the loop reaches a dash token whose interpreted key
is unknown to the registry or carries a non-empty section, it stops with
the single error `Invalid parameter <token>` naming the original token,
whatever tokens remain. -/
theorem C7_invalid_parameter_fail_fast (am : ArgsManager)
    (opts : List (String × List SettingsValue)) (tok k v : String)
    (rest : List String) (h1 : tok ≠ "-")
    (h2 : ParseKeyValue tok = some (k, v))
    (h3 : am.GetArgFlags ("-" ++ (InterpretOption "" (strDrop k 1) v).key) = none ∨
          (InterpretOption "" (strDrop k 1) v).sect ≠ "") :
    parseLoop am (tok :: rest) opts = .error ("Invalid parameter " ++ tok) := by
  rcases h3 with h3 | h3
  · simp [parseLoop, h1, h2, h3]
  · cases hf : am.GetArgFlags ("-" ++ (InterpretOption "" (strDrop k 1) v).key) with
    | none => simp [parseLoop, h1, h2, hf]
    | some flags => simp [parseLoop, h1, h2, hf, h3]

/-- C7 witness: the unknown flag `-unknownFlag` aborts immediately with
the diagnostic naming it. -/
theorem C7_invalid_parameter_fail_fast_witness :
    parseLoop fooOnlyAm ["-unknownFlag", "-foo"] [] =
      .error "Invalid parameter -unknownFlag" :=
  C7_invalid_parameter_fail_fast fooOnlyAm [] "-unknownFlag" "-unknownFlag" ""
    ["-foo"] (by decide) rfl (Or.inl rfl)

/-- C1: resolution searches Forced, then CommandLine, then the config
file's active-network section (when a network is selected), then the
config file's default section (when `UseDefaultSection` allows the
fallback), then Persisted; the first layer holding at least one value
for the key determines the result (the last value within that layer for
scalar access). -/
theorem C1_resolution_precedence (am : ArgsManager) (arg : String) :
    (∀ v, am.m_settings.forced_settings.lookup (SettingName arg) = some v →
       am.GetSetting arg = v) ∧
    (am.m_settings.forced_settings.lookup (SettingName arg) = none →
     lookupValues am.m_settings.command_line_options (SettingName arg) ≠ [] →
       am.GetSetting arg =
         (lookupValues am.m_settings.command_line_options
           (SettingName arg)).getLastD .vnull) ∧
    (am.m_settings.forced_settings.lookup (SettingName arg) = none →
     lookupValues am.m_settings.command_line_options (SettingName arg) = [] →
     am.m_network ≠ "" →
     lookupValues (lookupSection am.m_settings.ro_config am.m_network)
       (SettingName arg) ≠ [] →
       am.GetSetting arg =
         (lookupValues (lookupSection am.m_settings.ro_config am.m_network)
           (SettingName arg)).getLastD .vnull) ∧
    (am.m_settings.forced_settings.lookup (SettingName arg) = none →
     lookupValues am.m_settings.command_line_options (SettingName arg) = [] →
     (am.m_network = "" ∨
      lookupValues (lookupSection am.m_settings.ro_config am.m_network)
        (SettingName arg) = []) →
     am.UseDefaultSection arg = true →
     lookupValues (lookupSection am.m_settings.ro_config "")
       (SettingName arg) ≠ [] →
       am.GetSetting arg =
         (lookupValues (lookupSection am.m_settings.ro_config "")
           (SettingName arg)).getLastD .vnull) ∧
    (am.m_settings.forced_settings.lookup (SettingName arg) = none →
     lookupValues am.m_settings.command_line_options (SettingName arg) = [] →
     (am.m_network = "" ∨
      lookupValues (lookupSection am.m_settings.ro_config am.m_network)
        (SettingName arg) = []) →
     (am.UseDefaultSection arg = false ∨
      lookupValues (lookupSection am.m_settings.ro_config "")
        (SettingName arg) = []) →
       am.GetSetting arg =
         (am.m_settings.rw_settings.lookup (SettingName arg)).getD .vnull) := by
  refine ⟨?_, ?_, ?_, ?_, ?_⟩
  · intro v h
    simp [ArgsManager.GetSetting, util.GetSetting, h]
  · intro h1 h2
    simp [ArgsManager.GetSetting, util.GetSetting, h1, List.isEmpty_iff, h2]
  · intro h1 h2 h3 h4
    simp [ArgsManager.GetSetting, util.GetSetting, h1, h2, h3, h4,
      List.isEmpty_iff]
  · intro h1 h2 h3 h4 h5
    rcases h3 with h3 | h3 <;>
      simp [ArgsManager.GetSetting, util.GetSetting, h1, h2, h3, h4, h5,
        List.isEmpty_iff]
  · intro h1 h2 h3 h4
    rcases h3 with h3 | h3 <;> rcases h4 with h4 | h4 <;>
      cases hrw : am.m_settings.rw_settings.lookup (SettingName arg) <;>
        simp [ArgsManager.GetSetting, util.GetSetting, h1, h2, h3, h4, hrw,
          List.isEmpty_iff]

/-- C1 witness: with `-maxmempool=100` on the command line and
`maxmempool=50` in the config file's default section, the command-line
value wins and `GetIntArg` with default 300 returns 100. -/
theorem C1_resolution_precedence_witness :
    maxmempoolAm.GetSetting "-maxmempool" = SettingsValue.vstr "100" ∧
    maxmempoolAm.GetIntArg "-maxmempool" 300 = some 100 :=
  ⟨((C1_resolution_precedence maxmempoolAm "-maxmempool").2.1 rfl
      (fun hc => nomatch hc)).trans rfl,
   rfl⟩

/-- C8: `GetChainName` raises the fatal configuration error exactly when
more than one of {`-chain` set, `-testnet` active, `-regtest` active}
holds; with exactly one active it yields that network's name (the
explicit `-chain` value for the third), and with none active the main
network's name. -/
theorem C8_network_mutual_exclusion (am : ArgsManager) (r t : Bool)
    (hr : get_net am "-regtest" = some r)
    (ht : get_net am "-testnet" = some t) :
    (1 < (if am.IsArgSet "-chain" then 1 else 0) + (if r then 1 else 0) +
         (if t then 1 else 0) →
       am.GetChainName = some (.error
         "Invalid combination of -regtest, -testnet and -chain. Can use at most one.")) ∧
    (¬ (1 < (if am.IsArgSet "-chain" then 1 else 0) + (if r then 1 else 0) +
            (if t then 1 else 0)) →
       ∀ e, am.GetChainName ≠ some (.error e)) ∧
    (r = true → t = false → am.IsArgSet "-chain" = false →
       am.GetChainName = some (.ok CBaseChainParams.REGTEST)) ∧
    (r = false → t = true → am.IsArgSet "-chain" = false →
       am.GetChainName = some (.ok CBaseChainParams.TESTNET)) ∧
    (∀ c, r = false → t = false →
     am.GetSetting "-chain" = SettingsValue.vstr c →
       am.GetChainName = some (.ok c)) ∧
    (r = false → t = false → am.GetSetting "-chain" = SettingsValue.vnull →
       am.GetChainName = some (.ok CBaseChainParams.MAIN)) := by
  refine ⟨?_, ?_, ?_, ?_, ?_, ?_⟩
  · intro h
    simp only [ArgsManager.GetChainName, hr, ht]
    rw [if_pos h]
  · intro h e
    simp only [ArgsManager.GetChainName, hr, ht]
    rw [if_neg h]
    cases r with
    | true => simp
    | false =>
      cases t with
      | true => simp
      | false =>
        cases hg : am.GetArg "-chain" CBaseChainParams.MAIN <;> simp [hg]
  · intro hr' ht' hc
    subst hr'; subst ht'
    simp [ArgsManager.GetChainName, hr, ht, hc]
  · intro hr' ht' hc
    subst hr'; subst ht'
    simp [ArgsManager.GetChainName, hr, ht, hc]
  · intro c hr' ht' hc
    subst hr'; subst ht'
    simp [ArgsManager.GetChainName, hr, ht, ArgsManager.IsArgSet,
      ArgsManager.GetArg, hc, SettingsValue.isNull, SettingToString]
  · intro hr' ht' hc
    subst hr'; subst ht'
    simp [ArgsManager.GetChainName, hr, ht, ArgsManager.IsArgSet,
      ArgsManager.GetArg, hc, SettingsValue.isNull, SettingToString]

/-- C8 witness: with only `regtest` active the chain name is `regtest`
and no error is raised. -/
theorem C8_network_mutual_exclusion_witness :
    get_net regtestAm "-regtest" = some true ∧
    regtestAm.GetChainName = some (.ok CBaseChainParams.REGTEST) :=
  ⟨rfl, (C8_network_mutual_exclusion regtestAm true false rfl rfl).2.2.1
    rfl rfl rfl⟩

/-- C4 counterexample: with the settings file disabled (`-settings`
negated), `WriteSettingsFile` does not no-op successfully — it throws a
`std::logic_error` instead of returning success. -/
theorem C4_counterexample_disabled_write :
    settingsOffAm.WriteSettingsFile true [] true false =
      some (.thrown
        "Attempt to write settings file when dynamic settings are disabled.") ∧
    settingsOffAm.WriteSettingsFile true [] true false ≠ some SaveOutcome.ok :=
  ⟨rfl, by decide⟩

/-- C4 amended: when the configured settings path reports disabled, the
save operation (`WriteSettingsFile`) raises a logic error rather than
returning success; it is the load operation (`ReadSettingsFile`) that
no-ops successfully (and callers such as `InitSettings` skip the save by
checking the path first). -/
theorem C4_disabled_write_throws (am : ArgsManager) (writeOk : Bool)
    (write_errors : List String) (renameOk backup readOk : Bool)
    (h1 : am.GetSettingsPath false backup = some none)
    (h2 : am.GetSettingsPath true backup = some none)
    (h3 : am.GetSettingsPath false false = some none) :
    am.WriteSettingsFile writeOk write_errors renameOk backup =
      some (.thrown
        "Attempt to write settings file when dynamic settings are disabled.") ∧
    am.ReadSettingsFile readOk = some true := by
  constructor
  · simp [ArgsManager.WriteSettingsFile, h1, h2]
  · simp [ArgsManager.ReadSettingsFile, h3]

/-- C4 amended witness: the disabled fixture throws on save and no-ops
on load. -/
theorem C4_disabled_write_throws_witness :
    settingsOffAm.WriteSettingsFile false ["boom"] false true =
      some (.thrown
        "Attempt to write settings file when dynamic settings are disabled.") ∧
    settingsOffAm.ReadSettingsFile false = some true :=
  C4_disabled_write_throws settingsOffAm false ["boom"] false true false
    rfl rfl rfl
